import Mathlib

/-!
Shallow embedding of the parallel GCS folder downloader of this repository
(tf_gpu/tensorflow-env-data-setup/gcs_folder_download.py; the same downloader
is duplicated in scripts/download_training_data.py).  Python strings are
modelled as Lean String values and every string primitive the script uses
(startswith, endswith, slicing, split(sep, 1), strip, lstrip) is defined
below over the character list of the string.  The local filesystem is an
association list from path to entry, the remote transfer is an oracle
saying whether downloading a blob succeeds within the retry deadline, and
a raised Python exception is an Except.error value.
-/

deriving instance DecidableEq for Except

/-- Python s[n:] on character positions. -/
def strDrop (s : String) (n : Nat) : String := String.mk (s.data.drop n)

/-- Python s.startswith(t). -/
def strStartsWith (s t : String) : Bool := t.data.isPrefixOf s.data

/-- Python s.endswith(t). -/
def strEndsWith (s t : String) : Bool := t.data.isSuffixOf s.data

/-- Drop every leading occurrence of the character c. -/
def stripLead (c : Char) (l : List Char) : List Char := l.dropWhile (fun a => a = c)

/-- Python s.lstrip(c). -/
def pyLStrip (s : String) (c : Char) : String := String.mk (stripLead c s.data)

/-- Python s.rstrip(c). -/
def pyRStrip (s : String) (c : Char) : String := String.mk (stripLead c s.data.reverse).reverse

/-- Python s.strip(c): remove every leading and trailing occurrence of c. -/
def pyStrip (s : String) (c : Char) : String := pyRStrip (pyLStrip s c) c

/-- Split a character list at the first occurrence of sep: the parts before
and after it, or none when sep does not occur. -/
def splitFirstAux (sep : Char) : List Char → Option (List Char × List Char)
  | [] => none
  | a :: as =>
    if a = sep then some ([], as)
    else
      match splitFirstAux sep as with
      | none => none
      | some (l, r) => some (a :: l, r)

/-- Python s.split(sep, 1): the whole string when sep is absent, otherwise
the two pieces around the first occurrence. -/
def pySplit1 (s : String) (sep : Char) : String × Option String :=
  match splitFirstAux sep s.data with
  | none => (s, none)
  | some (l, r) => (String.mk l, some (String.mk r))

/-- parse_gcs_uri from the source: reject a locator that does not start with
gs://, split the remainder on the first slash into bucket and the rest,
strip the rest of leading and trailing slashes, and append one trailing
slash when the stripped rest is non-empty and does not already end with
one.  A raised ValueError is the Except.error case. -/
def parse_gcs_uri (gcs_uri : String) : Except String (String × String) :=
  if strStartsWith gcs_uri "gs://" then
    match pySplit1 (strDrop gcs_uri 5) '/' with
    | (bucket, none) => Except.ok (bucket, "")
    | (bucket, some rest) =>
      let p0 := pyStrip rest '/'
      Except.ok (bucket, if p0 ≠ "" ∧ strEndsWith p0 "/" = false then p0 ++ "/" else p0)
  else Except.error "GCS URI must start with gs://"

/-- The URI parser as the specification words it: on success the bucket is
the first path segment and the prefix is the remainder, normalized to end
with exactly one separator (extra trailing separators dropped, one appended
when missing), an empty prefix staying empty.  Leading separators of the
remainder are kept, since the specification only speaks about the end. -/
def parse_gcs_uri_specLiteral (gcs_uri : String) : Except String (String × String) :=
  if strStartsWith gcs_uri "gs://" then
    match pySplit1 (strDrop gcs_uri 5) '/' with
    | (bucket, none) => Except.ok (bucket, "")
    | (bucket, some rest) =>
      let core := pyRStrip rest '/'
      Except.ok (bucket, if core = "" then "" else core ++ "/")
  else Except.error "GCS URI must start with gs://"

/-- The amended description of the parser: the prefix is the remainder with
leading as well as trailing separators stripped, followed by a single
separator when the stripped remainder is non-empty. -/
def parse_gcs_uri_amendedSpec (gcs_uri : String) : Except String (String × String) :=
  if strStartsWith gcs_uri "gs://" then
    match pySplit1 (strDrop gcs_uri 5) '/' with
    | (bucket, none) => Except.ok (bucket, "")
    | (bucket, some rest) =>
      let core := pyStrip rest '/'
      Except.ok (bucket, if core = "" then "" else core ++ "/")
  else Except.error "GCS URI must start with gs://"

/-- What a stat of one local path can reveal: a regular file with its byte
size, something that exists but is not a regular file, or a filesystem
fault (permission error, broken symlink) that makes exists/is_file/stat
raise. -/
inductive FsEntry where
  | file (size : Nat)
  | dir
  | ioError
deriving DecidableEq

/-- Local filesystem: an association list from path to entry; the most
recent write is consed on the front and shadows older entries. -/
abbrev Fs := List (String × FsEntry)

/-- Look a path up in the filesystem. -/
def fsFind : Fs → String → Option FsEntry
  | [], _ => none
  | (p, e) :: rest, q => if q = p then some e else fsFind rest q

/-- Write an entry for a path, shadowing any previous entry. -/
def fsWrite (fs : Fs) (p : String) (e : FsEntry) : Fs := (p, e) :: fs

/-- should_skip from the source: true exactly when the path names a regular
file whose size equals the blob size.  A path that raises during the check
falls into the except-pass branch and yields false, as does a missing path
or a non-regular file. -/
def should_skip (fs : Fs) (lpath : String) (blobSize : Nat) : Bool :=
  match fsFind fs lpath with
  | some (FsEntry.file sz) => sz == blobSize
  | some FsEntry.dir => false
  | some FsEntry.ioError => false
  | none => false

/-- A RemoteObject as materialized by the listing: key and recorded byte
size (blob.name and blob.size). -/
structure Blob where
  name : String
  size : Nat
deriving DecidableEq

/-- The four parameters of google.api_core.retry.Retry, as exact rationals
since the source passes the exactly representable floats 1.0, 30.0, 2.0
and 300.0. -/
structure RetryPolicy where
  initial : ℚ
  maximum : ℚ
  multiplier : ℚ
  deadline : ℚ
deriving DecidableEq

/-- Retry(initial=1.0, maximum=30.0, multiplier=2.0, deadline=300.0), the
policy the worker constructs for each transfer of a single task.  The
floats 1.0, 30.0, 2.0 and 300.0 denote the integers 1, 30, 2 and 300
exactly, which is how they are written here. -/
def gcs_retry_policy : RetryPolicy :=
  { initial := 1, maximum := 30, multiplier := 2, deadline := 300 }

/-- One attempted byte transfer, recording which object it was for and the
retry policy it was constructed with. -/
structure Transfer where
  blobName : String
  policy : RetryPolicy
deriving DecidableEq

/-- Relative key of a task: blob.name[len(base_prefix):].lstrip("/") from the
source, the object key with the first len(base) characters removed and any
leading slashes stripped. -/
def rel_of (blobName basePfx : String) : String :=
  pyLStrip (strDrop blobName basePfx.length) '/'

/-- Local destination of a task: Path(dest_dir) / rel from the source,
modelled as joining with a single slash. -/
def local_path (dest_dir blobName basePfx : String) : String :=
  dest_dir ++ "/" ++ rel_of blobName basePfx

/-- Result of one download_blob invocation: the string the call returns or
the exception it raises, the filesystem afterwards, and the transfers it
attempted (each recording the retry policy it was constructed with). -/
structure BlobStep where
  result : Except String String
  fs : Fs
  transfers : List Transfer
deriving DecidableEq

/-- download_blob from the source, acting on one task.  The oracle net says
whether the byte transfer of a blob succeeds within the retry deadline;
when it does, a regular file of the blob's recorded size appears at the
computed local path; when every retry fails until the 300 time-unit
deadline is exhausted, the client raises and the exception leaves the
worker (the partial local file a failed transfer may leave behind is not
modelled, since the run aborts before any further observation).  The chunk
size only tunes transfer buffering and has no observable effect here;
mkdir(parents=True, exist_ok=True) only creates directories and is
likewise not observable in this filesystem model. -/
def download_blob (net : Blob → Bool) (fs : Fs) (blob : Blob)
    (basePfx dest_dir : String) (skip_existing : Bool) : BlobStep :=
  if strEndsWith blob.name "/" then
    { result := Except.ok ("DIR  : " ++ blob.name ++ " (skipped marker)"),
      fs := fs, transfers := [] }
  else if skip_existing && should_skip fs (local_path dest_dir blob.name basePfx) blob.size then
    { result := Except.ok ("SKIP : " ++ rel_of blob.name basePfx ++ " (exists, same size)"),
      fs := fs, transfers := [] }
  else if net blob then
    { result := Except.ok ("OK   : " ++ rel_of blob.name basePfx),
      fs := fsWrite fs (local_path dest_dir blob.name basePfx) (FsEntry.file blob.size),
      transfers := [{ blobName := blob.name, policy := gcs_retry_policy }] }
  else
    { result := Except.error ("transfer retry deadline exceeded: " ++ blob.name),
      fs := fs,
      transfers := [{ blobName := blob.name, policy := gcs_retry_policy }] }

/-- Everything a completed dispatch produces: the returned result strings in
submission order, the filesystem afterwards, and all transfers performed. -/
structure RunOk where
  results : List String
  fs : Fs
  transfers : List Transfer
deriving DecidableEq

/-- The dispatcher loop of main: ex.map evaluates download_blob on every
task and the loop consumes the results in submission order; a raised
exception propagates to the consuming loop and aborts the run at that
point, so no further result is collected. -/
def runTasks (net : Blob → Bool) (fs : Fs) (blobs : List Blob)
    (basePfx dest_dir : String) (skip_existing : Bool) : Except String RunOk :=
  match blobs with
  | [] => Except.ok { results := [], fs := fs, transfers := [] }
  | b :: rest =>
    let step := download_blob net fs b basePfx dest_dir skip_existing
    match step.result with
    | Except.error e => Except.error e
    | Except.ok r =>
      match runTasks net step.fs rest basePfx dest_dir skip_existing with
      | Except.error e => Except.error e
      | Except.ok restRun =>
        Except.ok { results := r :: restRun.results, fs := restRun.fs,
                    transfers := step.transfers ++ restRun.transfers }

/-- Aggregate counts folded by the dispatcher's classification chain over
the returned result strings: completed and errors are the two counters of
the source; skipped and dirMarkers count how often the SKIP and DIR
branches of the same chain are taken. -/
structure Summary where
  completed : Nat
  skipped : Nat
  dirMarkers : Nat
  errors : Nat
  total : Nat
deriving DecidableEq

/-- One iteration of the dispatcher's classification chain
(if OK / elif SKIP / elif DIR / else count an error). -/
def tallyStep (s : Summary) (r : String) : Summary :=
  if strStartsWith r "OK" then { s with completed := s.completed + 1 }
  else if strStartsWith r "SKIP" then { s with skipped := s.skipped + 1 }
  else if strStartsWith r "DIR" then { s with dirMarkers := s.dirMarkers + 1 }
  else { s with errors := s.errors + 1 }

/-- Fold the classification chain over all collected results. -/
def tally (results : List String) (total : Nat) : Summary :=
  results.foldl tallyStep
    { completed := 0, skipped := 0, dirMarkers := 0, errors := 0, total := total }

/-- main after URI parsing: the listing either raises (authorization or
connectivity failure) or yields the materialized blob list; an empty
listing returns early with no summary; otherwise the dispatcher runs and,
if no task exception propagates, the final summary is produced. -/
def mainRun (net : Blob → Bool) (fs : Fs) (listing : Except String (List Blob))
    (basePfx dest_dir : String) (skip_existing : Bool) :
    Except String (Option Summary × Fs) :=
  match listing with
  | Except.error e => Except.error e
  | Except.ok blobs =>
    if blobs.isEmpty then Except.ok (none, fs)
    else
      match runTasks net fs blobs basePfx dest_dir skip_existing with
      | Except.error e => Except.error e
      | Except.ok run => Except.ok (some (tally run.results blobs.length), run.fs)

/-- Process exit status of the script: 0 on normal return of main, non-zero
(the interpreter reports 1) when an uncaught exception aborts main. -/
def exitCode {α : Type} (r : Except String α) : Nat :=
  match r with
  | Except.ok _ => 0
  | Except.error _ => 1

/-- Number of task failures observable from a finished run of main: an
aborted run carries the (at least one) failure whose exception propagated;
a completed run carries the errors counter of its summary; an early return
on an empty listing has none. -/
def failCount (r : Except String (Option Summary × Fs)) : Nat :=
  match r with
  | Except.error _ => 1
  | Except.ok (some s, _) => s.errors
  | Except.ok (none, _) => 0

/-- Exit rule of scripts/download_training_data.py main, which accumulates
error counts over the requested prefixes and ends with
return 0 if total_errors == 0 else 1. -/
def download_training_exit (total_errors : Nat) : Nat :=
  if total_errors = 0 then 0 else 1

/-- Result line the second of two identical runs produces for one blob when
every non-marker object is already present with its recorded size:
directory markers keep their DIR line, everything else is skipped. -/
def secondRunLine (basePfx : String) (b : Blob) : String :=
  if strEndsWith b.name "/" then "DIR  : " ++ b.name ++ " (skipped marker)"
  else "SKIP : " ++ rel_of b.name basePfx ++ " (exists, same size)"

/-! String lemmas used throughout. -/

theorem strStartsWith_append_left (u t s : String) (h : strStartsWith t u = true) :
    strStartsWith (t ++ s) u = true := by
  unfold strStartsWith at h ⊢
  rw [String.data_append]
  rw [List.isPrefixOf_iff_prefix] at h ⊢
  exact h.trans (List.prefix_append _ _)

theorem ok_line_tag (x : String) : strStartsWith ("OK   : " ++ x) "OK" = true :=
  strStartsWith_append_left _ _ _ (by decide)

theorem skip_line_tag (x : String) :
    strStartsWith ("SKIP : " ++ x ++ " (exists, same size)") "SKIP" = true :=
  strStartsWith_append_left _ _ _ (strStartsWith_append_left _ _ _ (by decide))

theorem dir_line_tag (x : String) :
    strStartsWith ("DIR  : " ++ x ++ " (skipped marker)") "DIR" = true :=
  strStartsWith_append_left _ _ _ (strStartsWith_append_left _ _ _ (by decide))

theorem stripLead_head_ne (c : Char) :
    ∀ (m t : List Char) (a : Char), stripLead c m = a :: t → a ≠ c := by
  intro m
  induction m with
  | nil => intro t a h; cases h
  | cons x xs ih =>
    intro t a h
    by_cases hx : x = c
    · have hred : stripLead c (x :: xs) = stripLead c xs := by
        simp [stripLead, List.dropWhile, hx]
      rw [hred] at h
      exact ih t a h
    · have hred : stripLead c (x :: xs) = x :: xs := by
        simp [stripLead, List.dropWhile, hx]
      rw [hred] at h
      injection h with h1 _
      subst h1
      exact hx

theorem pyRStrip_not_endsWith (s : String) (c : Char) (h : pyRStrip s c ≠ "") :
    strEndsWith (pyRStrip s c) (String.mk [c]) = false := by
  unfold pyRStrip at h ⊢
  unfold strEndsWith List.isSuffixOf
  rcases hr : stripLead c s.data.reverse with _ | ⟨a, t⟩
  · rw [hr] at h
    exact absurd rfl h
  · have ha : a ≠ c := stripLead_head_ne c _ _ _ hr
    simp only [List.reverse_reverse]
    simp [List.isPrefixOf, beq_eq_false_iff_ne, Ne.symm ha]

/-! Claim C4: the URI parser. -/

/-- C4 counterexample: on gs://b//a the parser strips the leading separator
of the remainder as well, yielding prefix a/, while the remainder of the
locator normalized only at its end would be /a/.  So the parser does not
return the remainder merely normalized to end with one separator. -/
theorem parse_strips_leading_separators_too :
    parse_gcs_uri "gs://b//a" = Except.ok ("b", "a/") ∧
    parse_gcs_uri_specLiteral "gs://b//a" = Except.ok ("b", "/a/") ∧
    parse_gcs_uri "gs://b//a" ≠ parse_gcs_uri_specLiteral "gs://b//a" := by
  refine ⟨by decide, by decide, by decide⟩

/-- C4 amended: the parser fails exactly when the scheme prefix is absent,
and otherwise returns the first path segment as the bucket and, as the
prefix, the remainder with leading and trailing separators stripped and a
single separator appended when the stripped remainder is non-empty. -/
theorem parse_gcs_uri_amended_exact (gcs_uri : String) :
    parse_gcs_uri gcs_uri = parse_gcs_uri_amendedSpec gcs_uri ∧
    ((∃ e, parse_gcs_uri gcs_uri = Except.error e) ↔ strStartsWith gcs_uri "gs://" = false) := by
  constructor
  · unfold parse_gcs_uri parse_gcs_uri_amendedSpec
    by_cases hs : strStartsWith gcs_uri "gs://"
    · simp only [hs, if_true]
      rcases hsp : pySplit1 (strDrop gcs_uri 5) '/' with ⟨bucket, _ | rest⟩
      · rfl
      · by_cases h0 : pyStrip rest '/' = ""
        · simp [h0]
        · have he : strEndsWith (pyStrip rest '/') "/" = false := by
            have : (String.mk ['/'] : String) = "/" := rfl
            rw [← this]
            exact pyRStrip_not_endsWith (pyLStrip rest '/') '/' h0
          simp [h0, he]
    · simp [hs]
  · by_cases hs : strStartsWith gcs_uri "gs://"
    · simp only [hs]
      unfold parse_gcs_uri
      simp only [hs, if_true]
      rcases hsp : pySplit1 (strDrop gcs_uri 5) '/' with ⟨bucket, _ | rest⟩
      · simp
      · simp
    · unfold parse_gcs_uri
      simp [hs]

/-! Claim C5: the existence check. -/

/-- Helper: the existence check succeeds exactly on a regular file of the
recorded size. -/
theorem should_skip_iff_file (fs : Fs) (lpath : String) (sz : Nat) :
    should_skip fs lpath sz = true ↔ fsFind fs lpath = some (FsEntry.file sz) := by
  unfold should_skip
  rcases hf : fsFind fs lpath with _ | e
  · simp
  · cases e with
    | file s => simp [beq_iff_eq]
    | dir => simp
    | ioError => simp

/-- C5: should_skip returns true exactly when a regular file exists at the
path and its byte size equals the blob's recorded size.  Everything else
(missing path, non-regular file, a filesystem fault that would make the
stat raise) yields false instead of propagating, since the model folds the
raising cases into FsEntry and should_skip is a total Bool function. -/
theorem existence_check_iff_size_match (fs : Fs) (lpath : String) (sz : Nat) :
    should_skip fs lpath sz = true ↔ fsFind fs lpath = some (FsEntry.file sz) :=
  should_skip_iff_file fs lpath sz

/-! Claim C6: directory markers. -/

/-- Helper: the worker's directory-marker branch in one equation. -/
theorem download_blob_marker (net : Blob → Bool) (fs : Fs) (blob : Blob)
    (basePfx dest_dir : String) (skip_existing : Bool)
    (h : strEndsWith blob.name "/" = true) :
    download_blob net fs blob basePfx dest_dir skip_existing =
      { result := Except.ok ("DIR  : " ++ blob.name ++ " (skipped marker)"),
        fs := fs, transfers := [] } := by
  unfold download_blob
  simp [h]

/-- C6: a task whose object key ends with the path separator returns the
DirectoryMarkerIgnored line with no transfer and no filesystem change,
whatever the skip-existing flag and the state of network and disk. -/
theorem directory_marker_never_transferred (net : Blob → Bool) (fs : Fs) (blob : Blob)
    (basePfx dest_dir : String) (skip_existing : Bool)
    (h : strEndsWith blob.name "/" = true) :
    download_blob net fs blob basePfx dest_dir skip_existing =
      { result := Except.ok ("DIR  : " ++ blob.name ++ " (skipped marker)"),
        fs := fs, transfers := [] } :=
  download_blob_marker net fs blob basePfx dest_dir skip_existing h

/-- C6 witness: a concrete marker object with skip-existing enabled. -/
theorem directory_marker_never_transferred_witness :
    download_blob (fun _ => false) [] { name := "p/sub/", size := 0 } "p/" "d" true =
      { result := Except.ok ("DIR  : " ++ "p/sub/" ++ " (skipped marker)"),
        fs := [], transfers := [] } :=
  directory_marker_never_transferred (fun _ => false) [] { name := "p/sub/", size := 0 }
    "p/" "d" true (by decide)

/-! Claim C7: the local destination path. -/

/-- C7: for a key extending the listing prefix the computed local path is
the destination root joined with the key relative to the prefix, leading
separators stripped; being a pure function of (key, prefix, destination),
it is the same on every run with the same inputs. -/
theorem local_path_strips_listing_prefix_exactly (basePfx rest dest_dir : String) :
    local_path dest_dir (basePfx ++ rest) basePfx = dest_dir ++ "/" ++ pyLStrip rest '/' := by
  unfold local_path rel_of strDrop
  have h1 : (basePfx ++ rest).data = basePfx.data ++ rest.data := String.data_append _ _
  rw [h1]
  rw [show String.length basePfx = basePfx.data.length from rfl, List.drop_left]

/-! Claim C10: every returned worker value carries one of the three tags. -/

/-- Helper: every value download_blob returns (rather than raises) starts
with OK, SKIP or DIR. -/
theorem download_blob_ok_tagged (net : Blob → Bool) (fs : Fs) (blob : Blob)
    (basePfx dest_dir : String) (skip_existing : Bool) (r : String)
    (h : (download_blob net fs blob basePfx dest_dir skip_existing).result = Except.ok r) :
    strStartsWith r "OK" = true ∨ strStartsWith r "SKIP" = true ∨
      strStartsWith r "DIR" = true := by
  unfold download_blob at h
  by_cases h1 : strEndsWith blob.name "/" = true
  · simp only [h1, if_true] at h
    simp only [Except.ok.injEq] at h
    subst h
    exact Or.inr (Or.inr (dir_line_tag _))
  · simp only [h1, if_false, Bool.not_eq_true] at h
    rw [if_neg (by simp [h1])] at h
    by_cases h2 : (skip_existing &&
        should_skip fs (local_path dest_dir blob.name basePfx) blob.size) = true
    · rw [if_pos h2] at h
      simp only [Except.ok.injEq] at h
      subst h
      exact Or.inr (Or.inl (skip_line_tag _))
    · rw [if_neg h2] at h
      by_cases h3 : net blob = true
      · rw [if_pos h3] at h
        simp only [Except.ok.injEq] at h
        subst h
        exact Or.inl (ok_line_tag _)
      · rw [if_neg h3] at h
        cases h

/-- Helper: the dispatcher's error branch leaves the error counter alone on
any result that carries one of the three tags. -/
theorem tallyStep_errors_of_tagged (s : Summary) (r : String)
    (h : strStartsWith r "OK" = true ∨ strStartsWith r "SKIP" = true ∨
      strStartsWith r "DIR" = true) :
    (tallyStep s r).errors = s.errors := by
  unfold tallyStep
  by_cases h1 : strStartsWith r "OK" = true
  · simp [h1]
  · by_cases h2 : strStartsWith r "SKIP" = true
    · simp [h1, h2]
    · by_cases h3 : strStartsWith r "DIR" = true
      · simp [h1, h2, h3]
      · rcases h with h | h | h <;> simp_all

/-- C10: a value the worker returns is a string tagged OK, SKIP or DIR, so
the dispatcher's error-counting else branch is never taken on a returned
value; a failure only ever leaves the worker as a raised exception. -/
theorem returned_value_never_counts_as_error (net : Blob → Bool) (fs : Fs) (blob : Blob)
    (basePfx dest_dir : String) (skip_existing : Bool) (r : String) (s : Summary)
    (h : (download_blob net fs blob basePfx dest_dir skip_existing).result = Except.ok r) :
    (strStartsWith r "OK" = true ∨ strStartsWith r "SKIP" = true ∨
      strStartsWith r "DIR" = true) ∧
    (tallyStep s r).errors = s.errors :=
  ⟨download_blob_ok_tagged net fs blob basePfx dest_dir skip_existing r h,
   tallyStep_errors_of_tagged s r
     (download_blob_ok_tagged net fs blob basePfx dest_dir skip_existing r h)⟩

/-- C10 witness: a concrete successful download and a concrete summary. -/
theorem returned_value_never_counts_as_error_witness :
    (strStartsWith "OK   : x" "OK" = true ∨ strStartsWith "OK   : x" "SKIP" = true ∨
      strStartsWith "OK   : x" "DIR" = true) ∧
    (tallyStep { completed := 4, skipped := 3, dirMarkers := 2, errors := 1, total := 10 }
      "OK   : x").errors = 1 :=
  returned_value_never_counts_as_error (fun _ => true) [] { name := "p/x", size := 9 }
    "p/" "d" false "OK   : x"
    { completed := 4, skipped := 3, dirMarkers := 2, errors := 1, total := 10 } (by decide)

/-! Dispatcher-level lemmas. -/

/-- Unfolding equation of runTasks on a non-empty task list. -/
theorem runTasks_cons (net : Blob → Bool) (fs : Fs) (b : Blob) (rest : List Blob)
    (basePfx dest_dir : String) (skip : Bool) :
    runTasks net fs (b :: rest) basePfx dest_dir skip =
      match (download_blob net fs b basePfx dest_dir skip).result with
      | Except.error e => Except.error e
      | Except.ok r =>
        match runTasks net (download_blob net fs b basePfx dest_dir skip).fs rest
            basePfx dest_dir skip with
        | Except.error e => Except.error e
        | Except.ok restRun =>
          Except.ok { results := r :: restRun.results, fs := restRun.fs,
                      transfers := (download_blob net fs b basePfx dest_dir skip).transfers
                        ++ restRun.transfers } := rfl

/-- Unfolding equation of runTasks on the empty task list. -/
theorem runTasks_nil (net : Blob → Bool) (fs : Fs) (basePfx dest_dir : String) (skip : Bool) :
    runTasks net fs [] basePfx dest_dir skip =
      Except.ok { results := [], fs := fs, transfers := [] } := rfl

/-- Helper: a completed dispatch has exactly one collected result per
listed blob. -/
theorem runTasks_length (net : Blob → Bool) :
    ∀ (blobs : List Blob) (fs : Fs) (basePfx dest_dir : String) (skip : Bool) (run : RunOk),
      runTasks net fs blobs basePfx dest_dir skip = Except.ok run →
      run.results.length = blobs.length := by
  intro blobs
  induction blobs with
  | nil =>
    intro fs basePfx dest_dir skip run h
    rw [runTasks_nil] at h
    simp only [Except.ok.injEq] at h
    subst h
    rfl
  | cons b rest ih =>
    intro fs basePfx dest_dir skip run h
    rw [runTasks_cons] at h
    split at h
    · exact Except.noConfusion h
    · split at h
      · exact Except.noConfusion h
      · rename_i restRun hrest
        simp only [Except.ok.injEq] at h
        subst h
        simp only [List.length_cons]
        rw [ih _ _ _ _ restRun hrest]

/-- Helper: every result a completed dispatch collected was a returned
worker value, hence tagged OK, SKIP or DIR. -/
theorem runTasks_results_tagged (net : Blob → Bool) :
    ∀ (blobs : List Blob) (fs : Fs) (basePfx dest_dir : String) (skip : Bool) (run : RunOk),
      runTasks net fs blobs basePfx dest_dir skip = Except.ok run →
      ∀ r ∈ run.results,
        strStartsWith r "OK" = true ∨ strStartsWith r "SKIP" = true ∨
          strStartsWith r "DIR" = true := by
  intro blobs
  induction blobs with
  | nil =>
    intro fs basePfx dest_dir skip run h
    rw [runTasks_nil] at h
    simp only [Except.ok.injEq] at h
    subst h
    intro r hr
    cases hr
  | cons b rest ih =>
    intro fs basePfx dest_dir skip run h
    rw [runTasks_cons] at h
    split at h
    · exact Except.noConfusion h
    · rename_i r0 hr0
      split at h
      · exact Except.noConfusion h
      · rename_i restRun hrest
        simp only [Except.ok.injEq] at h
        subst h
        intro r hr
        rcases List.mem_cons.mp hr with hhead | htail
        · subst hhead
          exact download_blob_ok_tagged net fs b basePfx dest_dir skip r hr0
        · exact ih _ _ _ _ restRun hrest r htail

/-- Helper: folding the classification chain over tagged results never
touches the error counter. -/
theorem foldl_tallyStep_errors (rs : List String) :
    ∀ (s : Summary),
      (∀ r ∈ rs, strStartsWith r "OK" = true ∨ strStartsWith r "SKIP" = true ∨
        strStartsWith r "DIR" = true) →
      (rs.foldl tallyStep s).errors = s.errors := by
  induction rs with
  | nil => intro s _; rfl
  | cons r rest ih =>
    intro s hall
    simp only [List.foldl_cons]
    rw [ih (tallyStep s r) (fun x hx => hall x (List.mem_cons_of_mem r hx))]
    exact tallyStep_errors_of_tagged s r (hall r (List.mem_cons_self r rest))

/-- Helper: each classification step increments exactly one of the four
counters, so folding it adds the number of results to their sum. -/
theorem foldl_tallyStep_sum (rs : List String) :
    ∀ (s : Summary),
      (rs.foldl tallyStep s).completed + (rs.foldl tallyStep s).skipped +
        (rs.foldl tallyStep s).dirMarkers + (rs.foldl tallyStep s).errors =
      s.completed + s.skipped + s.dirMarkers + s.errors + rs.length := by
  induction rs with
  | nil => intro s; simp
  | cons r rest ih =>
    intro s
    simp only [List.foldl_cons, List.length_cons]
    rw [ih (tallyStep s r)]
    have hstep : (tallyStep s r).completed + (tallyStep s r).skipped +
        (tallyStep s r).dirMarkers + (tallyStep s r).errors =
        s.completed + s.skipped + s.dirMarkers + s.errors + 1 := by
      unfold tallyStep
      by_cases h1 : strStartsWith r "OK" = true
      · simp [h1]; omega
      · by_cases h2 : strStartsWith r "SKIP" = true
        · simp [h1, h2]; omega
        · by_cases h3 : strStartsWith r "DIR" = true
          · simp [h1, h2, h3]; omega
          · simp [h1, h2, h3]; omega
    rw [hstep]
    omega

/-! Claim C3: one outcome per listed object, counts partition the total. -/

/-- C3: a completed run collects exactly one outcome per listed object, and
the Downloaded, Skipped, DirectoryMarkerIgnored and Failed counts folded
into the final summary add up to the number of listed objects. -/
theorem summary_counts_partition_listing (net : Blob → Bool) (fs : Fs) (blobs : List Blob)
    (basePfx dest_dir : String) (skip : Bool) (run : RunOk)
    (h : runTasks net fs blobs basePfx dest_dir skip = Except.ok run) :
    run.results.length = blobs.length ∧
    (tally run.results blobs.length).completed + (tally run.results blobs.length).skipped +
      (tally run.results blobs.length).dirMarkers +
      (tally run.results blobs.length).errors = blobs.length := by
  have hlen := runTasks_length net blobs fs basePfx dest_dir skip run h
  refine ⟨hlen, ?_⟩
  unfold tally
  rw [foldl_tallyStep_sum]
  simpa using hlen

/-- C3 witness: a download plus a directory marker. -/
theorem summary_counts_partition_listing_witness :
    (["OK   : a", "DIR  : p/d/ (skipped marker)"] : List String).length = 2 ∧
    (tally ["OK   : a", "DIR  : p/d/ (skipped marker)"] 2).completed +
      (tally ["OK   : a", "DIR  : p/d/ (skipped marker)"] 2).skipped +
      (tally ["OK   : a", "DIR  : p/d/ (skipped marker)"] 2).dirMarkers +
      (tally ["OK   : a", "DIR  : p/d/ (skipped marker)"] 2).errors = 2 :=
  summary_counts_partition_listing (fun _ => true) []
    [{ name := "p/a", size := 1 }, { name := "p/d/", size := 0 }] "p/" "d" false
    { results := ["OK   : a", "DIR  : p/d/ (skipped marker)"],
      fs := [("d/a", FsEntry.file 1)],
      transfers := [{ blobName := "p/a", policy := gcs_retry_policy }] } (by decide)

/-! Claim C2: exit status. -/

/-- C2: the process exits with status zero exactly when no failure
occurred: an aborted run (task failure whose exception propagates, or a
listing failure) exits non-zero, and a completed run always has error
count zero, so a non-zero failure count always comes with a non-zero exit
status.  The sibling script's explicit exit rule is likewise non-zero on
any non-zero accumulated error count. -/
theorem exit_status_zero_iff_no_failure (net : Blob → Bool) (fs : Fs)
    (listing : Except String (List Blob)) (basePfx dest_dir : String) (skip : Bool) :
    (exitCode (mainRun net fs listing basePfx dest_dir skip) = 0 ↔
      failCount (mainRun net fs listing basePfx dest_dir skip) = 0) ∧
    (∀ e, listing = Except.error e →
      exitCode (mainRun net fs listing basePfx dest_dir skip) = 1) ∧
    (∀ n : Nat, n ≠ 0 → download_training_exit n ≠ 0) := by
  refine ⟨?_, ?_, ?_⟩
  · cases listing with
    | error e => simp [mainRun, exitCode, failCount]
    | ok blobs =>
      by_cases hb : blobs.isEmpty = true
      · simp [mainRun, hb, exitCode, failCount]
      · rcases hrun : runTasks net fs blobs basePfx dest_dir skip with e | run
        · simp [mainRun, hb, hrun, exitCode, failCount]
        · have herr : (tally run.results blobs.length).errors = 0 := by
            unfold tally
            exact foldl_tallyStep_errors run.results _
              (runTasks_results_tagged net blobs fs basePfx dest_dir skip run hrun)
          simp [mainRun, hb, hrun, exitCode, failCount, herr]
  · intro e he
    subst he
    simp [mainRun, exitCode]
  · intro n hn
    simp [download_training_exit, hn]

/-- C2 witness: a failed listing exits 1, and an error count of 3 makes
the sibling script exit non-zero. -/
theorem exit_status_zero_iff_no_failure_witness :
    (exitCode (mainRun (fun _ => true) [] (Except.error "403 forbidden") "p/" "d" false) = 0 ↔
      failCount (mainRun (fun _ => true) [] (Except.error "403 forbidden") "p/" "d" false) = 0) ∧
    exitCode (mainRun (fun _ => true) [] (Except.error "403 forbidden") "p/" "d" false) = 1 ∧
    download_training_exit 3 ≠ 0 :=
  ⟨(exit_status_zero_iff_no_failure (fun _ => true) [] (Except.error "403 forbidden")
      "p/" "d" false).1,
   (exit_status_zero_iff_no_failure (fun _ => true) [] (Except.error "403 forbidden")
      "p/" "d" false).2.1 "403 forbidden" rfl,
   (exit_status_zero_iff_no_failure (fun _ => true) [] (Except.error "403 forbidden")
      "p/" "d" false).2.2 3 (by decide)⟩

/-! Claim C1: what actually happens when one task keeps failing. -/

/-- C1 evidence: with a listing of two objects whose first transfer fails
persistently, main aborts with the propagated exception: no Failed outcome
is recorded, the sibling object's outcome is never collected and no final
summary is produced — while the same run without the failing object
completes and reports its summary.  The dispatcher's own error-counting
else branch and the Errors field of its final report show that per-object
failure tallying was the intent the specification describes. -/
theorem failing_task_aborts_dispatcher :
    mainRun (fun b => !(b.name == "p/bad")) []
        (Except.ok [{ name := "p/bad", size := 5 }, { name := "p/good", size := 7 }])
        "p/" "d" false =
      Except.error ("transfer retry deadline exceeded: " ++ "p/bad") ∧
    mainRun (fun b => !(b.name == "p/bad")) []
        (Except.ok [{ name := "p/good", size := 7 }]) "p/" "d" false =
      Except.ok (some { completed := 1, skipped := 0, dirMarkers := 0, errors := 0,
                        total := 1 }, [("d/good", FsEntry.file 7)]) :=
  ⟨by decide, by decide⟩

/-! Claim C9: the retry parameters. -/

/-- C9: every transfer a task performs is constructed with exactly the
retry parameters initial 1.0, multiplier 2.0, backoff ceiling 30.0 and
overall deadline 300.0; the policy is built afresh inside the single
worker invocation handling that task, so its deadline clock starts at that
task's first attempt. -/
theorem retry_policy_parameters_exact (net : Blob → Bool) (fs : Fs) (blob : Blob)
    (basePfx dest_dir : String) (skip_existing : Bool) (t : Transfer)
    (ht : t ∈ (download_blob net fs blob basePfx dest_dir skip_existing).transfers) :
    t.policy.initial = 1 ∧ t.policy.multiplier = 2 ∧ t.policy.maximum = 30 ∧
      t.policy.deadline = 300 := by
  unfold download_blob at ht
  by_cases h1 : strEndsWith blob.name "/" = true
  · simp [h1] at ht
  · rw [if_neg (by simp [h1])] at ht
    by_cases h2 : (skip_existing &&
        should_skip fs (local_path dest_dir blob.name basePfx) blob.size) = true
    · rw [if_pos h2] at ht
      simp at ht
    · rw [if_neg h2] at ht
      by_cases h3 : net blob = true
      · rw [if_pos h3] at ht
        simp only [List.mem_singleton] at ht
        subst ht
        refine ⟨?_, ?_, ?_, ?_⟩ <;> norm_num [gcs_retry_policy]
      · rw [if_neg h3] at ht
        simp only [List.mem_singleton] at ht
        subst ht
        refine ⟨?_, ?_, ?_, ?_⟩ <;> norm_num [gcs_retry_policy]

/-- C9 witness: the transfer of a concrete successful download. -/
theorem retry_policy_parameters_exact_witness :
    ({ blobName := "p/x", policy := gcs_retry_policy } : Transfer).policy.initial = 1 ∧
    ({ blobName := "p/x", policy := gcs_retry_policy } : Transfer).policy.multiplier = 2 ∧
    ({ blobName := "p/x", policy := gcs_retry_policy } : Transfer).policy.maximum = 30 ∧
    ({ blobName := "p/x", policy := gcs_retry_policy } : Transfer).policy.deadline = 300 :=
  retry_policy_parameters_exact (fun _ => true) [] { name := "p/x", size := 3 } "p/" "d" false
    { blobName := "p/x", policy := gcs_retry_policy } (by decide)

/-! Claim C8: idempotence of a second run with skip-existing. -/

/-- Helper: a write is found at its own path. -/
theorem fsFind_fsWrite_self (fs : Fs) (p : String) (e : FsEntry) :
    fsFind (fsWrite fs p e) p = some e := by
  simp [fsFind, fsWrite]

/-- Helper: a write does not change lookups at other paths. -/
theorem fsFind_fsWrite_other (fs : Fs) (p q : String) (e : FsEntry) (h : q ≠ p) :
    fsFind (fsWrite fs p e) q = fsFind fs q := by
  simp [fsFind, fsWrite, h]

/-- Helper: the worker's skip branch in one equation. -/
theorem download_blob_skip_branch (net : Blob → Bool) (fs : Fs) (blob : Blob)
    (basePfx dest_dir : String)
    (h1 : strEndsWith blob.name "/" = false)
    (h2 : should_skip fs (local_path dest_dir blob.name basePfx) blob.size = true) :
    download_blob net fs blob basePfx dest_dir true =
      { result := Except.ok ("SKIP : " ++ rel_of blob.name basePfx ++ " (exists, same size)"),
        fs := fs, transfers := [] } := by
  unfold download_blob
  rw [if_neg (by simp [h1]), if_pos (by simp [h2])]

/-- Helper: one worker invocation leaves every other path alone. -/
theorem download_blob_fs_preserves (net : Blob → Bool) (fs : Fs) (blob : Blob)
    (basePfx dest_dir : String) (skip : Bool) (p : String)
    (hp : strEndsWith blob.name "/" = false → local_path dest_dir blob.name basePfx ≠ p) :
    fsFind (download_blob net fs blob basePfx dest_dir skip).fs p = fsFind fs p := by
  unfold download_blob
  by_cases h1 : strEndsWith blob.name "/" = true
  · simp [h1]
  · rw [if_neg (by simp [h1])]
    by_cases h2 : (skip &&
        should_skip fs (local_path dest_dir blob.name basePfx) blob.size) = true
    · rw [if_pos h2]
    · rw [if_neg h2]
      by_cases h3 : net blob = true
      · rw [if_pos h3]
        exact fsFind_fsWrite_other fs _ p _
          (Ne.symm (hp (by simpa using h1)))
      · rw [if_neg h3]

/-- Helper: after a worker invocation that returned (did not raise) on a
non-marker task, the task's own path holds a regular file of the blob's
recorded size — either it was just written, or the skip branch checked it
was already there. -/
theorem download_blob_fs_establishes (net : Blob → Bool) (fs : Fs) (blob : Blob)
    (basePfx dest_dir : String) (skip : Bool) (r : String)
    (hm : strEndsWith blob.name "/" = false)
    (hok : (download_blob net fs blob basePfx dest_dir skip).result = Except.ok r) :
    fsFind (download_blob net fs blob basePfx dest_dir skip).fs
      (local_path dest_dir blob.name basePfx) = some (FsEntry.file blob.size) := by
  unfold download_blob at hok ⊢
  rw [if_neg (by simp [hm])] at hok ⊢
  by_cases h2 : (skip &&
      should_skip fs (local_path dest_dir blob.name basePfx) blob.size) = true
  · rw [if_pos h2]
    exact (should_skip_iff_file fs _ blob.size).mp (Bool.and_eq_true _ _ |>.mp h2).2
  · rw [if_neg h2] at hok ⊢
    by_cases h3 : net blob = true
    · rw [if_pos h3]
      exact fsFind_fsWrite_self fs _ _
    · rw [if_neg h3] at hok
      exact Except.noConfusion hok

/-- Unfolding equation of runTasks when the head step is known to return. -/
theorem runTasks_cons_of_step (net : Blob → Bool) (fs : Fs) (b : Blob) (rest : List Blob)
    (basePfx dest_dir : String) (skip : Bool) (r : String) (fs2 : Fs) (ts : List Transfer)
    (hstep : download_blob net fs b basePfx dest_dir skip =
      { result := Except.ok r, fs := fs2, transfers := ts }) :
    runTasks net fs (b :: rest) basePfx dest_dir skip =
      match runTasks net fs2 rest basePfx dest_dir skip with
      | Except.error e => Except.error e
      | Except.ok restRun =>
        Except.ok { results := r :: restRun.results, fs := restRun.fs,
                    transfers := ts ++ restRun.transfers } := by
  rw [runTasks_cons, hstep]

/-- Helper: a completed dispatch leaves every path alone that no listed
non-marker task writes to. -/
theorem runTasks_preserves_other (net : Blob → Bool) :
    ∀ (blobs : List Blob) (fs : Fs) (basePfx dest_dir : String) (skip : Bool)
      (run : RunOk) (p : String),
      runTasks net fs blobs basePfx dest_dir skip = Except.ok run →
      (∀ b ∈ blobs, strEndsWith b.name "/" = false →
        local_path dest_dir b.name basePfx ≠ p) →
      fsFind run.fs p = fsFind fs p := by
  intro blobs
  induction blobs with
  | nil =>
    intro fs basePfx dest_dir skip run p h _
    rw [runTasks_nil] at h
    simp only [Except.ok.injEq] at h
    subst h
    rfl
  | cons b rest ih =>
    intro fs basePfx dest_dir skip run p h hp
    rw [runTasks_cons] at h
    split at h
    · exact Except.noConfusion h
    · split at h
      · exact Except.noConfusion h
      · rename_i restRun hrest
        simp only [Except.ok.injEq] at h
        subst h
        have h1 : fsFind restRun.fs p =
            fsFind (download_blob net fs b basePfx dest_dir skip).fs p :=
          ih _ _ _ _ restRun p hrest
            (fun x hx hnx => hp x (List.mem_cons_of_mem b hx) hnx)
        rw [h1]
        exact download_blob_fs_preserves net fs b basePfx dest_dir skip p
          (hp b (List.mem_cons_self b rest))

/-- Distinctness hypothesis the amended C8 needs: two listed objects that
are both real files (not directory markers) never share a local
destination path. -/
def pathsDisjoint (basePfx dest_dir : String) (a b : Blob) : Prop :=
  strEndsWith a.name "/" = false → strEndsWith b.name "/" = false →
    local_path dest_dir a.name basePfx ≠ local_path dest_dir b.name basePfx

/-- Helper: after a completed run with pairwise-distinct destination paths,
every listed non-marker object's path holds a regular file of its recorded
size — written by the run, or verified present by its skip branch. -/
theorem runTasks_establishes_sizes (net : Blob → Bool) :
    ∀ (blobs : List Blob) (fs : Fs) (basePfx dest_dir : String) (skip : Bool) (run : RunOk),
      runTasks net fs blobs basePfx dest_dir skip = Except.ok run →
      blobs.Pairwise (pathsDisjoint basePfx dest_dir) →
      ∀ b ∈ blobs, strEndsWith b.name "/" = false →
        fsFind run.fs (local_path dest_dir b.name basePfx) = some (FsEntry.file b.size) := by
  intro blobs
  induction blobs with
  | nil =>
    intro fs basePfx dest_dir skip run h _ b hb
    cases hb
  | cons b rest ih =>
    intro fs basePfx dest_dir skip run h hpair x hx hnx
    rw [runTasks_cons] at h
    split at h
    · exact Except.noConfusion h
    · rename_i r0 hr0
      split at h
      · exact Except.noConfusion h
      · rename_i restRun hrest
        simp only [Except.ok.injEq] at h
        subst h
        rcases List.mem_cons.mp hx with hhead | htail
        · subst hhead
          have hpres : fsFind restRun.fs (local_path dest_dir x.name basePfx) =
              fsFind (download_blob net fs x basePfx dest_dir skip).fs
                (local_path dest_dir x.name basePfx) :=
            runTasks_preserves_other net rest _ basePfx dest_dir skip restRun _ hrest
              (fun y hy hny =>
                Ne.symm ((List.pairwise_cons.mp hpair).1 y hy hnx hny))
          rw [hpres]
          exact download_blob_fs_establishes net fs x basePfx dest_dir skip r0 hnx hr0
        · exact ih _ basePfx dest_dir skip restRun hrest
            (List.pairwise_cons.mp hpair).2 x htail hnx

/-- Helper: when every listed non-marker object's path already holds a
regular file of its recorded size, a run with skip-existing enabled
performs no transfer at all: markers keep their DIR line, every other
object is skipped, and the filesystem is returned unchanged. -/
theorem runTasks_all_skip (net : Blob → Bool) :
    ∀ (blobs : List Blob) (fs : Fs) (basePfx dest_dir : String),
      (∀ b ∈ blobs, strEndsWith b.name "/" = false →
        fsFind fs (local_path dest_dir b.name basePfx) = some (FsEntry.file b.size)) →
      runTasks net fs blobs basePfx dest_dir true =
        Except.ok { results := blobs.map (secondRunLine basePfx), fs := fs,
                    transfers := [] } := by
  intro blobs
  induction blobs with
  | nil =>
    intro fs basePfx dest_dir _
    rw [runTasks_nil]
    rfl
  | cons b rest ih =>
    intro fs basePfx dest_dir hall
    have hrest := ih fs basePfx dest_dir
      (fun x hx hnx => hall x (List.mem_cons_of_mem b hx) hnx)
    by_cases hm : strEndsWith b.name "/" = true
    · rw [runTasks_cons_of_step net fs b rest basePfx dest_dir true _ _ _
        (download_blob_marker net fs b basePfx dest_dir true hm), hrest]
      simp [secondRunLine, hm]
    · have hb : strEndsWith b.name "/" = false := by simpa using hm
      have hsk : should_skip fs (local_path dest_dir b.name basePfx) b.size = true :=
        (should_skip_iff_file fs _ b.size).mpr (hall b (List.mem_cons_self b rest) hb)
      rw [runTasks_cons_of_step net fs b rest basePfx dest_dir true _ _ _
        (download_blob_skip_branch net fs b basePfx dest_dir hb hsk), hrest]
      simp [secondRunLine, hb]

/-- C8 amended: after a first run against a prefix and destination has
completed (no exception propagated — in particular every transfer it
attempted succeeded) and no remote object changed, a second run with
skip-existing enabled performs zero transfers and returns the filesystem
unchanged: every directory marker keeps its DIR line and every other
object is classified Skipped — provided no two listed non-marker objects
map to the same local destination path.  The second run's network oracle
is arbitrary because it is never consulted. -/
theorem second_run_is_all_skips (net1 net2 : Blob → Bool) (fs : Fs) (blobs : List Blob)
    (basePfx dest_dir : String) (skip1 : Bool) (run1 : RunOk)
    (hdist : blobs.Pairwise (pathsDisjoint basePfx dest_dir))
    (h1 : runTasks net1 fs blobs basePfx dest_dir skip1 = Except.ok run1) :
    runTasks net2 run1.fs blobs basePfx dest_dir true =
      Except.ok { results := blobs.map (secondRunLine basePfx), fs := run1.fs,
                  transfers := [] } :=
  runTasks_all_skip net2 blobs run1.fs basePfx dest_dir
    (runTasks_establishes_sizes net1 blobs fs basePfx dest_dir skip1 run1 h1 hdist)

/-- C8 witness: one object downloaded by a first run is skipped by the
second, with no transfer, even though the second run's network would fail
every download. -/
theorem second_run_is_all_skips_witness :
    runTasks (fun _ => false) [("d/x", FsEntry.file 3)] [{ name := "p/x", size := 3 }]
        "p/" "d" true =
      Except.ok { results := List.map (secondRunLine "p/") [{ name := "p/x", size := 3 }],
                  fs := [("d/x", FsEntry.file 3)], transfers := [] } :=
  second_run_is_all_skips (fun _ => true) (fun _ => false) [] [{ name := "p/x", size := 3 }]
    "p/" "d" false
    { results := ["OK   : x"], fs := [("d/x", FsEntry.file 3)],
      transfers := [{ blobName := "p/x", policy := gcs_retry_policy }] }
    (by simp) (by decide)

/-- C8 counterexample: the distinct keys p//a and p/a under listing prefix
p/ both map to local path d/a (the leading slash of the relative key is
stripped); with recorded sizes 1 and 2 a first run completes with both
transfers succeeding and leaves a file of size 2, so with no remote object
changed the second run with skip-existing enabled re-downloads both
objects (two transfers, OK lines, no SKIP line) instead of performing
zero re-transfers. -/
theorem second_run_retransfers_on_shared_path :
    runTasks (fun _ => true) [] [{ name := "p//a", size := 1 }, { name := "p/a", size := 2 }]
        "p/" "d" true =
      Except.ok { results := ["OK   : a", "OK   : a"],
                  fs := [("d/a", FsEntry.file 2), ("d/a", FsEntry.file 1)],
                  transfers := [{ blobName := "p//a", policy := gcs_retry_policy },
                                { blobName := "p/a", policy := gcs_retry_policy }] } ∧
    runTasks (fun _ => true) [("d/a", FsEntry.file 2), ("d/a", FsEntry.file 1)]
        [{ name := "p//a", size := 1 }, { name := "p/a", size := 2 }] "p/" "d" true =
      Except.ok { results := ["OK   : a", "OK   : a"],
                  fs := [("d/a", FsEntry.file 2), ("d/a", FsEntry.file 1),
                         ("d/a", FsEntry.file 2), ("d/a", FsEntry.file 1)],
                  transfers := [{ blobName := "p//a", policy := gcs_retry_policy },
                                { blobName := "p/a", policy := gcs_retry_policy }] } :=
  ⟨by decide, by decide⟩
